import Mathlib

/-!
# Verification of the pandas-checks dispatch/settings/render core

A shallow embedding, in Lean 4, of the parts of the `pandas_checks` (and the
legacy `pandas_vet`) Python package that the specification talks about:
the timer utility (`timer.py`), the options registry (`options.py`), the
check dispatcher (`run_checks.py`), the text renderer (`display.py`) and a
representative family of the `.check` accessor methods
(`DataFrameChecks.py`).

Python floats are modeled as `Option ℚ` (with `none` playing the role of
IEEE NaN, so any `==` comparison with it is false), Python strings as Lean
`String`s, pandas DataFrames as column-major lists of optional rationals
(`none` = null cell), and side effects (display calls, file writes) as
explicit lists of `Output` events returned by each operation.  Fallible
Python code returns `Except PyErr`.
-/

namespace PandasChecks

/-- A Python float: `none` models IEEE NaN (as produced by `np.nan`). -/
abbrev PFloat := Option ℚ

/-- The value `np.nan`. -/
def np_nan : PFloat := none

/-- Python `==` on floats: any comparison involving NaN is `False`. -/
def pfloatEq : PFloat → PFloat → Bool
  | some a, some b => a == b
  | _, _ => false

/-- Python `>` on floats against a rational literal: false when NaN. -/
def pfloatGt (x : PFloat) (c : ℚ) : Bool :=
  match x with
  | some a => decide (c < a)
  | none => false

/-- Python `>=` on floats against a rational literal: false when NaN. -/
def pfloatGe (x : PFloat) (c : ℚ) : Bool :=
  match x with
  | some a => decide (c ≤ a)
  | none => false

/-- Python float subtraction; NaN propagates. -/
def pfloatSub : PFloat → PFloat → PFloat
  | some a, some b => some (a - b)
  | _, _ => none

/-- Python float division by a nonzero rational constant; NaN propagates. -/
def pfloatDiv (x : PFloat) (c : ℚ) : PFloat :=
  x.map (fun a => a / c)

/-- Python float multiplication by a rational constant; NaN propagates. -/
def pfloatMul (x : PFloat) (c : ℚ) : PFloat :=
  x.map (fun a => a * c)

/-- Truthiness of a Python optional string: `None` and `""` are falsy. -/
def optTruthy : Option String → Bool
  | none => false
  | some s => !(s == "")

/-- The Python exceptions raised by the package. -/
inductive PyErr where
  | typeError (msg : String)
  | attributeError (msg : String)
  | valueError (msg : String)
  | keyError (msg : String)
  | dataError (msg : String)
  | optionError (msg : String)
  deriving Repr, DecidableEq

/-- The exception classes a caller may pass as `exception_to_raise`. -/
inductive ExcKind where
  | dataError
  | typeError
  | valueError
  deriving Repr, DecidableEq

/-- Raise an `ExcKind` with a message. -/
def ExcKind.mk : ExcKind → String → PyErr
  | .dataError, m => PyErr.dataError m
  | .typeError, m => PyErr.typeError m
  | .valueError, m => PyErr.valueError m

/-- A pandas DataFrame, stored column-major; a `none` cell is a null (NaN). -/
structure DF where
  cols : List (String × List (Option ℚ))
  deriving Repr, DecidableEq

/-- The values flowing through checks: DataFrames, Series, and scalars. -/
inductive PValue where
  | frame (df : DF)
  | series (name : Option String) (vals : List (Option ℚ))
  | int (n : ℤ)
  | str (s : String)
  | boolv (b : Bool)
  | nonev
  deriving Repr, DecidableEq

/-- The `subset` argument of check methods: `None`, a column name, or a
list of column names. -/
inductive Subset where
  | nullsub
  | col (name : String)
  | cols (names : List String)
  deriving Repr, DecidableEq

/-- Python truthiness of `subset` (`if subset:`): `None`, `""` and `[]`
are falsy. -/
def Subset.truthy : Subset → Bool
  | .nullsub => false
  | .col n => !(n == "")
  | .cols l => !l.isEmpty

/-- Python `str(subset)`, used by `_check_data` as a fallback check name. -/
def Subset.toStr : Subset → String
  | .nullsub => "None"
  | .col n => n
  | .cols l => "[" ++ String.intercalate ", " (l.map (fun n => "\x27" ++ n ++ "\x27")) ++ "]"

/-- The `colors` dictionary accepted by `_render_text` / `_display_line`. -/
structure ColorOpts where
  text_color : Option String := none
  text_background_color : Option String := none
  lead_in_text_color : Option String := none
  lead_in_background_color : Option String := none
  deriving Repr, DecidableEq

/-- A snapshot of the pandas-level `pdchecks.*` options that the dispatch,
display and timer code reads through `pd.get_option` / `get_mode()`. -/
structure Settings where
  enable_checks : Bool := true
  enable_asserts : Bool := true
  use_emojis : Bool := true
  fail_message_fg_color : String := "white"
  fail_message_bg_color : String := "red"
  pass_message_fg_color : String := "black"
  pass_message_bg_color : String := "green"
  deriving Repr, DecidableEq

/-- Observable side effects of a call: calls into the display layer
(`_display_check` / `_display_line`), timer reports, and file writes. -/
inductive Output where
  | displayCheck (value : PValue) (name : Option String)
  | displayLine (line : String) (lead_in : Option String) (colors : ColorOpts)
  | elapsedLine (lead : String) (elapsed : PFloat) (units : String)
  | timerStarted (t : ℚ)
  | fileWrite (path : String) (format : String) (value : PValue)
  deriving Repr, DecidableEq

/-! ## `pandas_checks/timer.py` -/

/-- Embeds `timer.start_timer`: with checks disabled returns `np.nan`; otherwise
returns the current time `now` (the shallow embedding passes the clock
reading in as an argument), optionally announcing it. -/
def start_timer (s : Settings) (now : ℚ) (verbose : Bool) : PFloat × List Output :=
  if !s.enable_checks then (np_nan, [])
  else (some now, if verbose then [Output.timerStarted now] else [])

/-- Embeds `timer.print_time_elapsed` from `pandas_checks`.  Mirrors the source:
the NaN check uses Python `==` (`start_time == np.nan`), the `"auto"`
branch picks hours / minutes / seconds / milliseconds by strict and
non-strict comparisons, conversions divide or multiply `elapsed`, and an
unrecognized unit raises `ValueError`. -/
def print_time_elapsed (s : Settings) (now : PFloat) (start_time : PFloat)
    (lead_in : Option String) (units : String) : Except PyErr (List Output) :=
  if s.enable_checks then
    let notice :=
      if pfloatEq start_time np_nan then
        [Output.displayLine "Timer hasn\x27t been started. Call start_timer() first" none {}]
      else []
    let elapsed := pfloatSub now start_time
    let units1 :=
      if units == "auto" then
        if pfloatGt elapsed (60 * 60) then "hours"
        else if pfloatGt elapsed 60 then "minutes"
        else if pfloatGe elapsed 1 then "seconds"
        else "milliseconds"
      else units
    let lead := if optTruthy lead_in then lead_in.getD "" ++ ":" else "⏱️ Time elapsed:"
    if units1 == "hours" || units1 == "h" then
      Except.ok (notice ++ [Output.elapsedLine lead (pfloatDiv elapsed (60 * 60)) units1])
    else if units1 == "minutes" || units1 == "m" then
      Except.ok (notice ++ [Output.elapsedLine lead (pfloatDiv elapsed 60) units1])
    else if units1 == "milliseconds" || units1 == "ms" then
      Except.ok (notice ++ [Output.elapsedLine lead (pfloatMul elapsed 1000) units1])
    else if !(units1 == "seconds" || units1 == "s") then
      Except.error (PyErr.valueError ("Unexpected value for argument `units`: " ++ units1))
    else
      Except.ok (notice ++ [Output.elapsedLine lead elapsed units1])
  else Except.ok []

/-! ## `pandas_vet/timer.py` (the legacy version)

In `pandas_vet` the start time lives in the pandas option
`vet.timer_start_time`; the embedding passes that stored value in as
`timer_start_time`. -/

/-- Embeds `timer.print_time_elapsed` from `pandas_vet`.  Note the source tests
`elapsed > 60` *before* `elapsed > 3600`, so the hours branch is
unreachable, and there is no milliseconds unit at all. -/
def vet_print_time_elapsed (s : Settings) (now : PFloat) (timer_start_time : PFloat)
    (lead_in : Option String) (units : String) : Except PyErr (List Output) :=
  if !s.enable_checks then Except.ok []
  else
    let start := timer_start_time
    let notice :=
      if pfloatEq start np_nan then
        [Output.displayLine "Timer hasn\x27t been started. Call start_timer() first" none {}]
      else []
    let elapsed := pfloatSub now start
    let units1 :=
      if units == "auto" then
        if pfloatGt elapsed 60 then "minutes"
        else if pfloatGt elapsed (60 * 60) then "hours"
        else "seconds"
      else units
    let lead := if optTruthy lead_in then lead_in.getD "" ++ ":" else "⏱️ Time elapsed:"
    if units1 == "minutes" then
      Except.ok (notice ++ [Output.elapsedLine lead (pfloatDiv elapsed 60) units1])
    else if units1 == "hours" then
      Except.ok (notice ++ [Output.elapsedLine lead (pfloatDiv elapsed (60 * 60)) units1])
    else if !(units1 == "seconds") then
      Except.error (PyErr.valueError ("Unexpected value for argument `units`: " ++ units1))
    else
      Except.ok (notice ++ [Output.elapsedLine lead elapsed units1])

/-! ## String helpers mirroring Python `str` methods -/

/-- Characters removed by Python `str.strip()` (the whitespace forms that
occur in this package's strings). -/
def pyWhitespace (c : Char) : Bool :=
  c == ' ' || c == '\t' || c == '\n' || c == '\r'

/-- Python `str.strip()`. -/
def pyStrip (s : String) : String :=
  ⟨((s.data.dropWhile pyWhitespace).reverse.dropWhile pyWhitespace).reverse⟩

/-- Python `str.endswith(suffix)`. -/
def pyEndsWith (s suffix : String) : Bool :=
  suffix.data.isSuffixOf s.data

/-- Python `str.startswith(pre)`. -/
def pyStartsWith (s pre : String) : Bool :=
  pre.data.isPrefixOf s.data

/-- Python `str.lower()`. -/
def pyLower (s : String) : String :=
  ⟨s.data.map Char.toLower⟩

/-! ## DataFrame operations used by the embedded checks -/

/-- Column lookup, `df[name]` on a single string key. -/
def DF.getCol (df : DF) (name : String) : Option (List (Option ℚ)) :=
  (df.cols.find? (fun c => c.1 == name)).map (fun c => c.2)

/-- Row count `df.shape[0]`: the number of rows (length of the columns). -/
def DF.nrowsNat (df : DF) : ℕ :=
  match df.cols with
  | [] => 0
  | c :: _ => c.2.length

/-- Embeds `df.dropna()`: keep only the row positions where every column is
non-null. -/
def DF.dropna (df : DF) : DF :=
  let keep := (List.range df.nrowsNat).filter
    (fun i => df.cols.all (fun c => ((c.2.get? i).getD none).isSome))
  ⟨df.cols.map (fun c => (c.1, keep.filterMap (fun i => c.2.get? i)))⟩

/-- Indexing `data[subset]`: select one column (giving a Series) or several
(giving a DataFrame); a missing column raises `KeyError`. -/
def PValue.index (v : PValue) (sub : Subset) : Except PyErr PValue :=
  match v, sub with
  | .frame df, .col n =>
    match df.getCol n with
    | some vals => .ok (.series (some n) vals)
    | none => .error (.keyError n)
  | .frame df, .cols ns =>
    if ns.all (fun n => (df.getCol n).isSome) then
      .ok (.frame ⟨ns.filterMap (fun n => (df.getCol n).map (fun vals => (n, vals)))⟩)
    else .error (.keyError (Subset.cols ns).toStr)
  | _, _ => .error (.typeError "unsupported subset for this value")

/-- Embeds `data.isna().any().any()` (resp. `.any()` for a Series), as used by
`_has_nulls`; a non-pandas value raises `AttributeError`. -/
def PValue.isnaAnyAny : PValue → Except PyErr Bool
  | .frame df => .ok (df.cols.any (fun c => c.2.any (fun x => x.isNone)))
  | .series _ vals => .ok (vals.any (fun x => x.isNone))
  | _ => .error (.attributeError "Unexpected data type in _has_nulls()")

/-- Embeds `data.dropna()`; the checks only call this on pandas values. -/
def PValue.dropna : PValue → PValue
  | .frame df => .frame df.dropna
  | .series n vals => .series n (vals.filter (fun x => x.isSome))
  | v => v

/-- The condition of `assert_positive`: `(df > 0).all().all()`.  A null
cell compares as `False` in pandas, hence `none ↦ false`. -/
def PValue.allPositive : PValue → Bool
  | .frame df => df.cols.all (fun c => c.2.all (fun x =>
      match x with | some q => decide (0 < q) | none => false))
  | .series _ vals => vals.all (fun x =>
      match x with | some q => decide (0 < q) | none => false)
  | .int n => decide (0 < n)
  | _ => false

/-- Row count `df.shape[0]` as the `check_fn` of `nrows` (a Series also answers
`shape[0]`; scalars raise `AttributeError`). -/
def PValue.shape0 : PValue → Except PyErr PValue
  | .frame df => .ok (.int df.nrowsNat)
  | .series _ vals => .ok (.int vals.length)
  | _ => .error (.attributeError "shape")

/-! ## `pandas_checks/run_checks.py` -/

/-- Embeds `_apply_modifications`: `fn(data)[subset] if subset else fn(data)`.
(The `callable(fn)` guard is not representable here: in the embedding
`fn` is always a function.) -/
def _apply_modifications (data : PValue) (fn : PValue → PValue) (subset : Subset) :
    Except PyErr PValue :=
  if subset.truthy then (fn data).index subset else Except.ok (fn data)

/-- Embeds `_check_data`: when checks are enabled, modify, compute, then display;
when disabled, do nothing at all. -/
def _check_data (s : Settings) (data : PValue) (check_fn : PValue → Except PyErr PValue)
    (modify_fn : PValue → PValue) (subset : Subset) (check_name : Option String) :
    Except PyErr (List Output) :=
  if s.enable_checks then
    match _apply_modifications data modify_fn subset with
    | .error e => .error e
    | .ok modified =>
      match check_fn modified with
      | .error e => .error e
      | .ok result =>
        .ok [Output.displayCheck result
          (if optTruthy check_name then check_name
           else if subset.truthy then some subset.toStr else none)]
  else Except.ok []

/-- Embeds `utils._has_nulls` (the version imported by `DataFrameChecks.py`):
raises or displays a failure banner when nulls are present. -/
def _has_nulls (s : Settings) (data : PValue) (fail_message : String)
    (raise_exception : Bool) (exception_to_raise : ExcKind) :
    Except PyErr (Bool × List Output) :=
  match data.isnaAnyAny with
  | .error e => .error e
  | .ok hn =>
    if hn then
      if raise_exception then
        .error (exception_to_raise.mk
          (fail_message ++ ": Nulls present (to disable, pass `assert_not_null=False`)"))
      else
        .ok (true,
          [Output.displayLine "Nulls present (to disable, pass `assert_not_null=False`)"
            (some fail_message)
            { lead_in_text_color := some s.fail_message_fg_color,
              lead_in_background_color := some s.fail_message_bg_color }])
    else .ok (false, [])

/-! ## `pandas_checks/DataFrameChecks.py`: the `.check` accessor methods

Each method is a function of the global settings snapshot, the data the
accessor is attached to (`self._obj`) and the method's arguments; it
returns the data handed back to the caller together with the side
effects, or a raised exception.  The extra `ℕ` returned by the assertion
methods counts how many times the user's `condition` was evaluated (the
source has exactly one `condition(data)` call site). -/

/-- Embeds `DataFrameChecks.assert_data`.  Here `condition_str` stands for
`_lambda_to_string(condition)`, the best-effort source text of the
condition, which a shallow embedding cannot recover from the function
value itself. -/
def assert_data (s : Settings) (data : PValue) (condition : PValue → Bool)
    (condition_str : String) (fail_message : String) (pass_message : String)
    (subset : Subset) (raise_exception : Bool) (exception_to_raise : ExcKind)
    (message_shows_condition : Bool) (verbose : Bool) :
    Except PyErr (PValue × List Output × ℕ) :=
  if !s.enable_asserts then Except.ok (data, [], 0)
  else
    match (if subset.truthy then data.index subset else Except.ok data) with
    | .error e => .error e
    | .ok d =>
      let result := condition d
      if !result then
        if raise_exception then
          .error (exception_to_raise.mk (fail_message ++
            (if !(condition_str == "") && message_shows_condition then
              " :" ++ condition_str else "")))
        else if message_shows_condition then
          .ok (data,
            [Output.displayLine condition_str (some fail_message)
              { lead_in_text_color := some s.fail_message_fg_color,
                lead_in_background_color := some s.fail_message_bg_color }], 1)
        else
          .ok (data,
            [Output.displayLine fail_message none
              { text_color := some s.fail_message_fg_color,
                text_background_color := some s.fail_message_bg_color }], 1)
      else if verbose then
        if message_shows_condition then
          .ok (data,
            [Output.displayLine condition_str (some pass_message)
              { lead_in_text_color := some s.pass_message_fg_color,
                lead_in_background_color := some s.pass_message_bg_color }], 1)
        else
          .ok (data,
            [Output.displayLine pass_message none
              { text_color := some s.pass_message_fg_color,
                text_background_color := some s.pass_message_bg_color }], 1)
      else .ok (data, [], 1)

/-- Embeds `DataFrameChecks.assert_positive`: an optional null pre-check via
`_has_nulls` (run before anything looks at `enable_asserts`), then
`assert_data` on `self._obj.dropna()` with condition
`(df > 0).all().all()` and `message_shows_condition=False` (so the
condition text never surfaces and is passed as `""` here). -/
def assert_positive (s : Settings) (data : PValue) (fail_message : String)
    (pass_message : String) (subset : Subset) (assert_no_nulls : Bool)
    (raise_exception : Bool) (exception_to_raise : ExcKind) (verbose : Bool) :
    Except PyErr (PValue × List Output × ℕ) :=
  let cont : List Output → Except PyErr (PValue × List Output × ℕ) := fun outs0 =>
    match assert_data s data.dropna PValue.allPositive "" fail_message pass_message
        subset raise_exception exception_to_raise false verbose with
    | .error e => .error e
    | .ok r => .ok (data, outs0 ++ r.2.1, r.2.2)
  if assert_no_nulls then
    match (if subset.truthy then data.index subset else Except.ok data) with
    | .error e => .error e
    | .ok pre =>
      match _has_nulls s pre fail_message raise_exception exception_to_raise with
      | .error e => .error e
      | .ok (true, outs) => .ok (data, outs, 0)
      | .ok (false, outs) => cont outs
  else cont []

/-- Embeds `DataFrameChecks.nrows`: `_check_data` with `check_fn = lambda df:
df.shape[0]`, then `return self._obj`. -/
def nrows (s : Settings) (data : PValue) (fn : PValue → PValue) (subset : Subset)
    (check_name : Option String) : Except PyErr (PValue × List Output) :=
  match _check_data s data PValue.shape0 fn subset check_name with
  | .error e => .error e
  | .ok outs => .ok (data, outs)

/-- Python `str(bool)`. -/
def pyBoolStr : Bool → String
  | true => "True"
  | false => "False"

/-- The text `str(get_mode())`, the dictionary text that `.check.get_mode`
prints. -/
def modeStr (s : Settings) : String :=
  "\x7b\x27enable_checks\x27: " ++ pyBoolStr s.enable_checks ++
    ", \x27enable_asserts\x27: " ++ pyBoolStr s.enable_asserts ++ "\x7d"

/-- Embeds `DataFrameChecks.get_mode`: displays the mode line unconditionally
(there is no `enable_checks` guard in the source) and returns the
data. -/
def get_mode_method (s : Settings) (data : PValue) (check_name : Option String) :
    PValue × List Output :=
  (data, [Output.displayLine (modeStr s) check_name {}])

/-- Embeds `format.lower().replace(".", "").strip()` applied to a non-`None`
`format` argument of `write`. -/
def format_clean (format : Option String) : Option String :=
  format.map (fun f => pyStrip ⟨(pyLower f).data.filter (fun c => !(c == '.'))⟩)

/-- The if/elif export dispatch of `DataFrameChecks.write`: match the
path suffix or the cleaned `format` override and emit the corresponding
export call; otherwise raise `AttributeError` (so no export function
ever runs for an unknown extension). -/
def export_event (path : String) (fc : Option String) (d : PValue) : Except PyErr Output :=
  if pyEndsWith path ".csv" || fc == some "csv" then
    .ok (.fileWrite path "csv" d)
  else if pyEndsWith path ".feather" || fc == some "feather" then
    .ok (.fileWrite path "feather" d)
  else if pyEndsWith path ".parquet" || fc == some "parquet" then
    .ok (.fileWrite path "parquet" d)
  else if pyEndsWith path ".pkl" || fc == some "pickle" then
    .ok (.fileWrite path "pickle" d)
  else if pyEndsWith path ".tsv" || fc == some "tsv" then
    .ok (.fileWrite path "tsv" d)
  else if pyEndsWith path ".xls" || pyEndsWith path ".xlsx" ||
      fc == some "xlsx" || fc == some "xls" || fc == some "excel" then
    .ok (.fileWrite path "excel" d)
  else
    .error (.attributeError
      ("Can\x27t write data to file. Unknown file extension in: " ++ path ++ ". "))

/-- Embeds `DataFrameChecks.write`: a no-op when checks are disabled; otherwise
clean the format override, apply the modifications, run the export
dispatch, then optionally announce the write and return the original
data. -/
def write (s : Settings) (data : PValue) (path : String) (format : Option String)
    (fn : PValue → PValue) (subset : Subset) (verbose : Bool) :
    Except PyErr (PValue × List Output) :=
  if !s.enable_checks then Except.ok (data, [])
  else
    let fc := format_clean format
    match _apply_modifications data fn subset with
    | .error e => .error e
    | .ok d =>
      match export_event path fc d with
      | .error e => .error e
      | .ok o =>
        .ok (data, [o] ++
          (if verbose then [Output.displayLine ("📦 Wrote file " ++ path) none {}] else []))

/-- Embeds `DataFrameChecks.print_time_elapsed`: calls the public timer function
and returns the data. -/
def print_time_elapsed_method (s : Settings) (data : PValue) (now : PFloat)
    (start_time : PFloat) (lead_in : Option String) (units : String) :
    Except PyErr (PValue × List Output) :=
  match print_time_elapsed s now start_time lead_in units with
  | .error e => .error e
  | .ok outs => .ok (data, outs)

/-- The embedded `.check` method surface, with each method's arguments.
`genericCheck` stands for the many one-line methods whose whole body is
a `_check_data` call followed by `return self._obj` (of which `nrows` is
the cited instance). -/
inductive MethodCall where
  | nrowsC (fn : PValue → PValue) (subset : Subset) (check_name : Option String)
  | genericCheck (check_fn : PValue → Except PyErr PValue) (fn : PValue → PValue)
      (subset : Subset) (check_name : Option String)
  | getModeC (check_name : Option String)
  | assertDataC (condition : PValue → Bool) (condition_str : String)
      (fail_message pass_message : String) (subset : Subset)
      (raise_exception : Bool) (exception_to_raise : ExcKind)
      (message_shows_condition verbose : Bool)
  | assertPositiveC (fail_message pass_message : String) (subset : Subset)
      (assert_no_nulls raise_exception : Bool) (exception_to_raise : ExcKind)
      (verbose : Bool)
  | writeC (path : String) (format : Option String) (fn : PValue → PValue)
      (subset : Subset) (verbose : Bool)
  | printTimeElapsedC (now start_time : PFloat) (lead_in : Option String)
      (units : String)

/-- Run one embedded `.check` method. -/
def runMethod (s : Settings) (data : PValue) : MethodCall →
    Except PyErr (PValue × List Output)
  | .nrowsC fn subset check_name => nrows s data fn subset check_name
  | .genericCheck check_fn fn subset check_name =>
    match _check_data s data check_fn fn subset check_name with
    | .error e => .error e
    | .ok outs => .ok (data, outs)
  | .getModeC check_name => .ok (get_mode_method s data check_name)
  | .assertDataC condition condition_str fail_message pass_message subset
      raise_exception exception_to_raise message_shows_condition verbose =>
    match assert_data s data condition condition_str fail_message pass_message
        subset raise_exception exception_to_raise message_shows_condition verbose with
    | .error e => .error e
    | .ok r => .ok (r.1, r.2.1)
  | .assertPositiveC fail_message pass_message subset assert_no_nulls
      raise_exception exception_to_raise verbose =>
    match assert_positive s data fail_message pass_message subset assert_no_nulls
        raise_exception exception_to_raise verbose with
    | .error e => .error e
    | .ok r => .ok (r.1, r.2.1)
  | .writeC path format fn subset verbose =>
    write s data path format fn subset verbose
  | .printTimeElapsedC now start_time lead_in units =>
    print_time_elapsed_method s data now start_time lead_in units

/-! ## `pandas_checks/options.py`: the pandas option registry -/

/-- The values stored in the pandas option registry by this package. -/
inductive OptVal where
  | int (n : ℤ)
  | bool (b : Bool)
  | str (s : String)
  | nonev
  | styleDict (selector : String) (props : List (String × String))
  deriving Repr, DecidableEq

/-- The validators the package registers options with.  A pandas
validator signals rejection by raising; `_is_callable` merely returns a
`bool`, so as a pandas validator it never rejects anything. -/
inductive Validator where
  | nonnegInt
  | instBool
  | instStr
  | instInt
  | instDict
  | isCallableV
  deriving Repr, DecidableEq

/-- Whether a validator lets a value through (i.e. does not raise).
`cf.is_nonnegative_int` also accepts `None`. -/
def Validator.accepts : Validator → OptVal → Bool
  | .nonnegInt, .int n => decide (0 ≤ n)
  | .nonnegInt, .nonev => true
  | .instBool, .bool _ => true
  | .instStr, .str _ => true
  | .instInt, .int _ => true
  | .instDict, .styleDict _ _ => true
  | .isCallableV, _ => true
  | _, _ => false

/-- One registered option: its current value, default, and validator. -/
structure RegEntry where
  value : OptVal
  default_value : OptVal
  validator : Validator
  deriving Repr, DecidableEq

/-- The pandas option registry, restricted to the `pdchecks.*`
namespace: an association list from fully qualified names to entries. -/
abbrev Registry := List (String × RegEntry)

/-- First-match lookup of a fully qualified option name. -/
def Registry.lookup (r : Registry) (key : String) : Option RegEntry :=
  (r.find? (fun p => p.1 == key)).map (fun p => p.2)

/-- Embeds `pd.get_option`: raises `OptionError` on an unknown name. -/
def pd_get_option (r : Registry) (key : String) : Except PyErr OptVal :=
  match r.lookup key with
  | some e => .ok e.value
  | none => .error (.optionError key)

/-- Embeds `pd.set_option`: raises `OptionError` on an unknown name and
`ValueError` when the registered validator rejects the value. -/
def pd_set_option (r : Registry) (key : String) (v : OptVal) : Except PyErr Registry :=
  match r.lookup key with
  | none => .error (.optionError key)
  | some e =>
    if e.validator.accepts v then
      .ok (r.map (fun p => if p.1 == key then (p.1, { p.2 with value := v }) else p))
    else .error (.valueError "invalid option value")

/-- Embeds `cf.register_option` under `config_prefix("pdchecks")`: appends a
fresh entry whose current value is the default (only ever called for a
name that is not yet registered). -/
def cf_register_option (r : Registry) (key : String) (default_value : OptVal)
    (validator : Validator) : Registry :=
  r ++ [(key, ⟨default_value, default_value, validator⟩)]

/-- Substring occurrence on character lists. -/
def listContainsSub (sub : List Char) : List Char → Bool
  | [] => sub.isEmpty
  | c :: rest => sub.isPrefixOf (c :: rest) || listContainsSub sub rest

/-- Python `sub in s` on strings. -/
def pyContains (s sub : String) : Bool :=
  listContainsSub sub.data s.data

/-- Embeds `replace("pdchecks.", "")`, specialised to its fixed pattern
(left-to-right, non-overlapping, as Python `str.replace`). -/
def stripPdchecksDots : List Char → List Char
  | 'p' :: 'd' :: 'c' :: 'h' :: 'e' :: 'c' :: 'k' :: 's' :: '.' :: rest =>
    stripPdchecksDots rest
  | c :: rest => c :: stripPdchecksDots rest
  | [] => []

/-- The `key_name` computation of `_register_option`:
`name if "pdchecks." not in name else name.replace("pdchecks.", "")`. -/
def registryKeyName (name : String) : String :=
  if pyContains name "pdchecks." then ⟨stripPdchecksDots name.data⟩ else name

/-- Embeds `options._register_option`: if the option already exists, reset its
value to the default; otherwise register it. -/
def _register_option (r : Registry) (name : String) (default_value : OptVal)
    (validator : Validator) : Except PyErr Registry :=
  let key_name := registryKeyName name
  match pd_get_option r ("pdchecks." ++ key_name) with
  | .ok _ => pd_set_option r ("pdchecks." ++ key_name) default_value
  | .error _ => .ok (cf_register_option r ("pdchecks." ++ key_name) default_value validator)

/-- Embeds `options._set_option`: qualify the name, check that it is a known
`pdchecks` option, then `pd.set_option`; otherwise `AttributeError`. -/
def _set_option (r : Registry) (option : String) (value : OptVal) : Except PyErr Registry :=
  let pdchecks_option :=
    if pyStartsWith option "pdchecks." then option else "pdchecks." ++ option
  match r.lookup pdchecks_option with
  | some _ => pd_set_option r pdchecks_option value
  | none => .error (.attributeError ("No Pandas Checks option for " ++ pdchecks_option))

/-- Embeds `options.set_format(**kwargs)`: `_set_option` for each keyword
argument in order. -/
def set_format (r : Registry) (kwargs : List (String × OptVal)) : Except PyErr Registry :=
  kwargs.foldlM (fun acc kv => _set_option acc kv.1 kv.2) r

/-- Embeds `options._initialize_format_options(None)`: (re-)register every
formatting option with its factory default. -/
def _initialize_format_options (r : Registry) : Except PyErr Registry := do
  let r ← _register_option r "precision" (.int 2) .nonnegInt
  let r ← _register_option r "table_row_hover_style"
      (.styleDict "tr:hover" [("background-color", "#2986cc")]) .instDict
  let r ← _register_option r "use_emojis" (.bool true) .instBool
  let r ← _register_option r "indent_table_terminal" (.int 4) .instInt
  let r ← _register_option r "indent_table_plot_ipython" (.int 30) .instInt
  let r ← _register_option r "check_text_tag" (.str "h5") .instStr
  let r ← _register_option r "table_title_tag" (.str "h5") .instStr
  let r ← _register_option r "plot_title_tag" (.str "h5") .instStr
  let r ← _register_option r "fail_message_fg_color" (.str "white") .instStr
  let r ← _register_option r "fail_message_bg_color" (.str "red") .instStr
  let r ← _register_option r "pass_message_fg_color" (.str "black") .instStr
  let r ← _register_option r "pass_message_bg_color" (.str "green") .instStr
  return r

/-- Embeds `options.reset_format`: restore all formatting options to factory
defaults. -/
def reset_format (r : Registry) : Except PyErr Registry :=
  _initialize_format_options r

/-- Embeds `options._initialize_options`: register the mode and output-routing
options, then the format options. -/
def _initialize_options (r : Registry) : Except PyErr Registry := do
  let r ← _register_option r "enable_checks" (.bool true) .instBool
  let r ← _register_option r "enable_asserts" (.bool true) .instBool
  let r ← _register_option r "print_to_stdout" (.bool true) .instBool
  let r ← _register_option r "custom_print_fn" .nonev .isCallableV
  _initialize_format_options r

/-! ## `pandas_checks/display.py`: text rendering

The emoji glyph table lives in the third-party `emoji` package, so the
embedding takes an `isEmoji : Char → Bool` parameter standing for
`emoji.replace_emoji`'s notion of an emoji glyph. -/

/-- Embeds `_filter_emojis`: the text unchanged when emojis are allowed; with
emojis disabled, `emoji.replace_emoji(text, replace="").strip()` — the
glyphs are removed *and* the result is whitespace-stripped. -/
def _filter_emojis (s : Settings) (isEmoji : Char → Bool) (text : String) : String :=
  if s.use_emojis then text
  else pyStrip ⟨text.data.filter (fun c => !isEmoji c)⟩

/-- Embeds `replace("on_", "")`, specialised to its fixed pattern. -/
def stripOnTokens : List Char → List Char
  | 'o' :: 'n' :: '_' :: rest => stripOnTokens rest
  | c :: rest => c :: stripOnTokens rest
  | [] => []

/-- The background-color pre-normalization at the top of `_render_text`:
a truthy color has every `"on_"` removed; `None` and `""` pass
through. -/
def normalizeBg : Option String → Option String
  | none => none
  | some c => if c == "" then some c else some ⟨stripOnTokens c.data⟩

/-- Embeds `_format_background_color`: prefix a truthy bare color with `"on_"`
for termcolor; keep a falsy color or an already-prefixed one as is. -/
def _format_background_color : Option String → Option String
  | none => none
  | some c =>
    if c == "" then some c
    else if !(pyStartsWith c "on_") then some ("on_" ++ c)
    else some c

/-- A `termcolor.colored(txt, fg, bg)` segment of a terminal line. -/
structure TermSeg where
  txt : String
  fg : Option String
  bg : Option String
  deriving Repr, DecidableEq

/-- An HTML `<span style='color:…; background-color:…'>…</span>`. -/
structure RichSpan where
  color : Option String
  background : Option String
  txt : String
  deriving Repr, DecidableEq

/-- What `_render_text` hands to the output routers: a blank spacer
line, a terminal line of colored segments, or a rich Markdown line. -/
inductive Rendered where
  | blank
  | termLine (lead : Option TermSeg) (body : TermSeg)
  | richLine (tag : String) (lead : Option RichSpan) (body : RichSpan)
  deriving Repr, DecidableEq

/-- Embeds `_lead_in`: the rich-environment lead-in span, colored by the
`foreground`/`background` arguments (which `_render_text` passes as
`lead_in_text_color`/`lead_in_background_color`). -/
def _lead_in (s : Settings) (isEmoji : Char → Bool) (lead_in : Option String)
    (foreground background : Option String) : Option RichSpan :=
  if optTruthy lead_in then
    some ⟨foreground, background, pyStrip (_filter_emojis s isEmoji (lead_in.getD ""))⟩
  else none

/-- Embeds `_render_text`, recorded as the rendered segments it sends to the
routers (the `custom_print_fn` forwarding plumbing is not modeled).  In
the terminal branch the source passes `text_color` — not
`lead_in_text_color` — as the foreground of the lead-in segment. -/
def _render_text (s : Settings) (isEmoji : Char → Bool) (is_terminal : Bool)
    (text : String) (tag : String) (lead_in : Option String) (colors : ColorOpts) :
    List Rendered :=
  if !(text == "") then
    let text_color := colors.text_color
    let text_background_color := normalizeBg colors.text_background_color
    let lead_in_text_color := colors.lead_in_text_color
    let lead_in_background_color := normalizeBg colors.lead_in_background_color
    if is_terminal then
      [Rendered.blank,
       Rendered.termLine
         (if optTruthy lead_in then
           some ⟨_filter_emojis s isEmoji (lead_in.getD ""), text_color,
                 _format_background_color lead_in_background_color⟩
          else none)
         ⟨_filter_emojis s isEmoji text, text_color,
          _format_background_color text_background_color⟩]
    else
      [Rendered.richLine tag
        (_lead_in s isEmoji lead_in lead_in_text_color lead_in_background_color)
        ⟨text_color, text_background_color, _filter_emojis s isEmoji text⟩]
  else []

/-! ## Fixtures -/

/-- Decidable equality for `Except` results, so concrete runs can be
checked by `decide`. -/
instance exceptDecEq {ε α : Type} [DecidableEq ε] [DecidableEq α] :
    DecidableEq (Except ε α) := fun x y =>
  match x, y with
  | .ok a, .ok b =>
    if h : a = b then isTrue (h ▸ rfl) else isFalse (fun he => h (Except.ok.inj he))
  | .error a, .error b =>
    if h : a = b then isTrue (h ▸ rfl) else isFalse (fun he => h (Except.error.inj he))
  | .ok _, .error _ => isFalse (fun he => Except.noConfusion he)
  | .error _, .ok _ => isFalse (fun he => Except.noConfusion he)

/-- A DataFrame with a null cell in its single column. -/
def dfWithNull : PValue := PValue.frame ⟨[("a", [some 1, none])]⟩

/-- A DataFrame with no nulls. -/
def dfClean : PValue := PValue.frame ⟨[("a", [some 1, some 2, some 3])]⟩

/-! ## Theorems -/

/-! ### Helper lemmas -/

/-- Every normally-returning run of `assert_data` hands back the original
data. -/
theorem assert_data_fst (s : Settings) (data : PValue) (condition : PValue → Bool)
    (cs fm pm : String) (subset : Subset) (re : Bool) (exc : ExcKind) (msc vb : Bool)
    (r : PValue × List Output × ℕ)
    (h : assert_data s data condition cs fm pm subset re exc msc vb = Except.ok r) :
    r.1 = data := by
  obtain ⟨r1, r2, r3⟩ := r
  unfold assert_data at h
  split at h
  · simp_all
  · rcases hidx : (if subset.truthy = true then data.index subset else Except.ok data)
      with e | d <;> rw [hidx] at h
    · cases h
    · cases hres : condition d <;> cases re <;> cases msc <;> cases vb <;> simp_all

/-- Every normally-returning run of `assert_positive` hands back the
original data, and evaluates its main condition zero times when asserts
are disabled. -/
theorem assert_positive_fst (s : Settings) (data : PValue)
    (fm pm : String) (subset : Subset) (anl re : Bool) (exc : ExcKind) (vb : Bool)
    (r : PValue × List Output × ℕ)
    (h : assert_positive s data fm pm subset anl re exc vb = Except.ok r) :
    r.1 = data ∧ (s.enable_asserts = false → r.2.2 = 0) := by
  simp only [assert_positive] at h
  split at h
  · rcases hidx : (if subset.truthy = true then data.index subset else Except.ok data)
      with e | pre <;> rw [hidx] at h <;> dsimp only at h
    · cases h
    · rcases hn : _has_nulls s pre fm re exc with e | br <;> rw [hn] at h
      · cases h
      · obtain ⟨b, outs⟩ := br
        cases b <;> dsimp only at h
        · rcases ha : assert_data s data.dropna PValue.allPositive "" fm pm subset re exc
              false vb with e | r2 <;> rw [ha] at h <;> dsimp only at h
          · cases h
          · cases h
            refine ⟨rfl, fun hoff => ?_⟩
            simp only [assert_data, hoff, Bool.not_false, if_true] at ha
            cases ha
            rfl
        · cases h
          exact ⟨rfl, fun _ => rfl⟩
  · rcases ha : assert_data s data.dropna PValue.allPositive "" fm pm subset re exc
        false vb with e | r2 <;> rw [ha] at h <;> dsimp only at h
    · cases h
    · cases h
      refine ⟨rfl, fun hoff => ?_⟩
      simp only [assert_data, hoff, Bool.not_false, if_true] at ha
      cases ha
      rfl

/-- Every normally-returning run of `write` hands back the original
data. -/
theorem write_fst (s : Settings) (data : PValue) (path : String) (format : Option String)
    (fn : PValue → PValue) (subset : Subset) (vb : Bool) (r : PValue × List Output)
    (h : write s data path format fn subset vb = Except.ok r) :
    r.1 = data := by
  obtain ⟨r1, r2⟩ := r
  unfold write at h
  split at h
  · simp_all
  · dsimp only at h
    rcases hm : _apply_modifications data fn subset with e | d <;> rw [hm] at h <;>
      dsimp only at h
    · cases h
    · rcases hev : export_event path (format_clean format) d with e | o <;> rw [hev] at h
      · cases h
      · simp_all

/-- Every normally-returning run of `nrows` hands back the original
data. -/
theorem nrows_fst (s : Settings) (data : PValue) (fn : PValue → PValue) (subset : Subset)
    (cn : Option String) (r : PValue × List Output)
    (h : nrows s data fn subset cn = Except.ok r) : r.1 = data := by
  obtain ⟨r1, r2⟩ := r
  unfold nrows at h
  rcases hc : _check_data s data PValue.shape0 fn subset cn with e | outs <;> rw [hc] at h
  · cases h
  · simp_all

/-- Every normally-returning run of the `print_time_elapsed` method hands
back the original data. -/
theorem pte_method_fst (s : Settings) (data : PValue) (now st : PFloat)
    (li : Option String) (units : String) (r : PValue × List Output)
    (h : print_time_elapsed_method s data now st li units = Except.ok r) : r.1 = data := by
  obtain ⟨r1, r2⟩ := r
  unfold print_time_elapsed_method at h
  rcases hc : print_time_elapsed s now st li units with e | outs <;> rw [hc] at h
  · cases h
  · simp_all

/-- Updating one registry entry in place leaves the key sequence
unchanged. -/
theorem registry_update_keys (r : Registry) (key : String) (dv : OptVal) :
    ((r.map (fun p => if p.1 == key then (p.1, { p.2 with value := dv }) else p)).map
        Prod.fst) = r.map Prod.fst := by
  induction r with
  | nil => rfl
  | cons hd tl ih =>
    simp only [List.map_cons]
    by_cases hk : (hd.1 == key) = true
    · rw [if_pos hk]
      exact congrArg (List.cons hd.1) ih
    · rw [if_neg hk]
      exact congrArg (List.cons hd.1) ih

/-- Updating one registry entry in place updates exactly the looked-up
entry. -/
theorem registry_update_lookup (r : Registry) (key : String) (dv : OptVal) (e : RegEntry)
    (h : Registry.lookup r key = some e) :
    Registry.lookup
        (r.map (fun p => if p.1 == key then (p.1, { p.2 with value := dv }) else p)) key =
      some { e with value := dv } := by
  induction r with
  | nil => simp [Registry.lookup] at h
  | cons hd tl ih =>
    unfold Registry.lookup at h ⊢
    simp only [List.map_cons, List.find?_cons] at h ⊢
    by_cases hk : (hd.1 == key) = true
    · rw [hk] at h
      rw [if_pos hk, hk]
      dsimp only [Option.map] at h ⊢
      cases h
      rfl
    · have hk2 : (hd.1 == key) = false := by
        cases hb : (hd.1 == key)
        · rfl
        · exact absurd hb hk
      rw [hk2] at h
      rw [if_neg hk, hk2]
      exact ih h
/-! ### Claim theorems -/

/-- C1: chain-safety identity invariant.  Every embedded `.check` method,
for every combination of arguments (any transform, any subset, checks or
asserts enabled or disabled), returns exactly the data object it was
invoked on whenever it returns at all. -/
theorem check_identity_invariant (s : Settings) (data : PValue) (call : MethodCall)
    (res : PValue × List Output) (h : runMethod s data call = Except.ok res) :
    res.1 = data := by
  cases call with
  | nrowsC fn subset cn => exact nrows_fst s data fn subset cn res h
  | genericCheck cf fn subset cn =>
    obtain ⟨r1, r2⟩ := res
    simp only [runMethod] at h
    rcases hc : _check_data s data cf fn subset cn with e | outs <;> rw [hc] at h
    · cases h
    · simp_all
  | getModeC cn =>
    simp only [runMethod] at h
    cases h
    rfl
  | assertDataC condition cs fm pm subset re exc msc vb =>
    simp only [runMethod] at h
    rcases ha : assert_data s data condition cs fm pm subset re exc msc vb with e | r2 <;>
      rw [ha] at h
    · cases h
    · cases h
      exact assert_data_fst s data condition cs fm pm subset re exc msc vb r2 ha
  | assertPositiveC fm pm subset anl re exc vb =>
    simp only [runMethod] at h
    rcases ha : assert_positive s data fm pm subset anl re exc vb with e | r2 <;>
      rw [ha] at h
    · cases h
    · cases h
      exact (assert_positive_fst s data fm pm subset anl re exc vb r2 ha).1
  | writeC path format fn subset vb =>
    simp only [runMethod] at h
    exact write_fst s data path format fn subset vb res h
  | printTimeElapsedC now st li units =>
    simp only [runMethod] at h
    exact pte_method_fst s data now st li units res h

/-- C1 witness: a concrete `nrows` run on a 3-row DataFrame returns that
DataFrame. -/
theorem check_identity_invariant_witness :
    ((dfClean, [Output.displayCheck (PValue.int 3) (some "☰ Rows")]) :
      PValue × List Output).1 = dfClean :=
  check_identity_invariant {} dfClean
    (MethodCall.nrowsC id Subset.nullsub (some "☰ Rows"))
    (dfClean, [Output.displayCheck (PValue.int 3) (some "☰ Rows")]) rfl

/-- C2 (counterexample): with checks globally disabled, `.check.get_mode`
still issues a display call — the claim that *every* check method is
silent when checks are disabled fails on `get_mode`, which has no
`enable_checks` guard. -/
theorem disable_invariant_counterexample :
    runMethod { enable_checks := false } (PValue.int 7)
      (MethodCall.getModeC (some "🐼🩺 Pandas Checks mode")) =
      Except.ok (PValue.int 7,
        [Output.displayLine (modeStr { enable_checks := false })
          (some "🐼🩺 Pandas Checks mode") {}]) ∧
    [Output.displayLine (modeStr { enable_checks := false })
      (some "🐼🩺 Pandas Checks mode") ({} : ColorOpts)] ≠ ([] : List Output) := by
  exact ⟨rfl, by simp⟩

/-- C2 (amended): with checks disabled, every dispatcher-routed check
(`_check_data` and the methods built on it), `write`, and the timer
functions are silent and side-effect free; `.check.get_mode` is the
exception — it displays its mode line regardless of the flag (and
assertions are governed solely by `enable_asserts`). -/
theorem disable_invariant_amended (s : Settings) (data : PValue)
    (h : s.enable_checks = false) :
    (∀ fn subset cn, nrows s data fn subset cn = Except.ok (data, [])) ∧
    (∀ check_fn fn subset cn, _check_data s data check_fn fn subset cn = Except.ok []) ∧
    (∀ path format fn subset vb, write s data path format fn subset vb =
      Except.ok (data, [])) ∧
    (∀ now st li units, print_time_elapsed s now st li units = Except.ok []) ∧
    (∀ now vb, start_timer s now vb = (np_nan, [])) ∧
    (∀ cn, get_mode_method s data cn =
      (data, [Output.displayLine (modeStr s) cn {}])) := by
  refine ⟨?_, ?_, ?_, ?_, ?_, ?_⟩
  · intro fn subset cn
    simp [nrows, _check_data, h]
  · intro check_fn fn subset cn
    simp [_check_data, h]
  · intro path format fn subset vb
    simp [write, h]
  · intro now st li units
    simp [print_time_elapsed, h]
  · intro now vb
    simp [start_timer, h]
  · intro cn
    rfl

/-- C2 witness: with checks disabled, a concrete `nrows` call is silent
and returns the data. -/
theorem disable_invariant_amended_witness :
    nrows { enable_checks := false } dfClean id Subset.nullsub (some "☰ Rows") =
      Except.ok (dfClean, []) :=
  (disable_invariant_amended { enable_checks := false } dfClean rfl).1
    id Subset.nullsub (some "☰ Rows")

/-- C3 (counterexample): with asserts globally disabled, `assert_positive`
on a DataFrame containing a null still raises, because its `_has_nulls`
pre-check runs before anything consults `enable_asserts`. -/
theorem assert_disable_counterexample :
    assert_positive { enable_asserts := false } dfWithNull
      " ㄨ Assert positive failed " " ✔️ Assert positive passed " Subset.nullsub
      true true ExcKind.dataError false =
      Except.error (PyErr.dataError
        " ㄨ Assert positive failed : Nulls present (to disable, pass `assert_not_null=False`)") :=
  rfl

/-- C3 (amended): with asserts disabled, `assert_data` itself returns the
original data without raising, without output, and without evaluating its
condition; specialized assertions likewise never evaluate their main
condition and return the original data whenever they return — but their
null pre-check is not gated by `enable_asserts` and may still raise. -/
theorem assert_disable_amended (s : Settings) (data : PValue)
    (h : s.enable_asserts = false) :
    (∀ condition cs fm pm subset re exc msc vb,
      assert_data s data condition cs fm pm subset re exc msc vb =
        Except.ok (data, [], 0)) ∧
    (∀ fm pm subset anl re exc vb r,
      assert_positive s data fm pm subset anl re exc vb = Except.ok r →
        r.1 = data ∧ r.2.2 = 0) := by
  constructor
  · intro condition cs fm pm subset re exc msc vb
    simp [assert_data, h]
  · intro fm pm subset anl re exc vb r hr
    exact ⟨(assert_positive_fst s data fm pm subset anl re exc vb r hr).1,
      (assert_positive_fst s data fm pm subset anl re exc vb r hr).2 h⟩

/-- C3 witness: the amended invariant applied to concrete disabled-assert
calls of `assert_data` and `assert_positive`. -/
theorem assert_disable_amended_witness :
    assert_data { enable_asserts := false } dfClean (fun _ => false) "lambda df: False"
      " ㄨ Assertion failed " " ✔️ Assertion passed " Subset.nullsub true
      ExcKind.dataError true false = Except.ok (dfClean, [], 0) ∧
    ((dfClean, ([] : List Output), (0 : ℕ)).1 = dfClean ∧
      (dfClean, ([] : List Output), (0 : ℕ)).2.2 = 0) :=
  ⟨(assert_disable_amended { enable_asserts := false } dfClean rfl).1
      (fun _ => false) "lambda df: False" " ㄨ Assertion failed " " ✔️ Assertion passed "
      Subset.nullsub true ExcKind.dataError true false,
   (assert_disable_amended { enable_asserts := false } dfClean rfl).2
      " ㄨ Assert positive failed " " ✔️ Assert positive passed " Subset.nullsub false
      true ExcKind.dataError false (dfClean, [], 0) rfl⟩
/-- C9: historical divergence of elapsed-time auto-unit selection.  At an
elapsed duration of 7200 s the legacy `pandas_vet` implementation reports
minutes where the current `pandas_checks` one reports hours, and at 1/2 s
the legacy one reports seconds where the current one reports
milliseconds: the two are not equivalent as unit-selection functions. -/
theorem auto_unit_divergence :
    vet_print_time_elapsed {} (some 7200) (some 0) (some "Time elapsed") "auto" =
      Except.ok [Output.elapsedLine "Time elapsed:" (some 120) "minutes"] ∧
    print_time_elapsed {} (some 7200) (some 0) (some "Time elapsed") "auto" =
      Except.ok [Output.elapsedLine "Time elapsed:" (some 2) "hours"] ∧
    vet_print_time_elapsed {} (some (1/2)) (some 0) (some "Time elapsed") "auto" =
      Except.ok [Output.elapsedLine "Time elapsed:" (some (1/2)) "seconds"] ∧
    print_time_elapsed {} (some (1/2)) (some 0) (some "Time elapsed") "auto" =
      Except.ok [Output.elapsedLine "Time elapsed:" (some 500) "milliseconds"] ∧
    ("minutes" : String) ≠ "hours" ∧ ("seconds" : String) ≠ "milliseconds" := by
  refine ⟨?_, ?_, ?_, ?_, by decide, by decide⟩ <;>
    norm_num [vet_print_time_elapsed, print_time_elapsed, pfloatEq, pfloatSub,
      pfloatGt, pfloatGe, pfloatDiv, pfloatMul, np_nan, optTruthy] <;>
    simp +decide

/-- C5: `start_timer` returns the NaN sentinel when checks are disabled,
but `print_time_elapsed` compares `start_time == np.nan` with Python
`==`, which is always false for NaN — so for a NaN start time the
"timer not started" notice is never rendered and a bogus
"nan milliseconds" line is displayed instead. -/
theorem timer_sentinel_bug :
    start_timer { enable_checks := false } 5 false = (np_nan, []) ∧
    print_time_elapsed {} (some 100) np_nan (some "⏱️ Time elapsed") "auto" =
      Except.ok [Output.elapsedLine "⏱️ Time elapsed:" none "milliseconds"] ∧
    Output.displayLine "Timer hasn\x27t been started. Call start_timer() first" none {} ∉
      [Output.elapsedLine "⏱️ Time elapsed:" none "milliseconds"] := by
  refine ⟨rfl, rfl, by simp⟩

/-- C8: in the terminal branch of `_render_text` the lead-in segment's
foreground is taken from `text_color`, not from `lead_in_text_color`
(which the docstring promises and which the rich branch honors); the
background-color normalization does treat `"green"` and `"on_green"` as
equivalent in both branches. -/
theorem lead_in_color_terminal_bug :
    _render_text {} (fun _ => false) true "Body" "h5" (some "Lead")
      { text_color := some "blue", lead_in_text_color := some "red",
        lead_in_background_color := some "green" } =
      [Rendered.blank,
       Rendered.termLine (some ⟨"Lead", some "blue", some "on_green"⟩)
         ⟨"Body", some "blue", none⟩] ∧
    _render_text {} (fun _ => false) false "Body" "h5" (some "Lead")
      { text_color := some "blue", lead_in_text_color := some "red",
        lead_in_background_color := some "green" } =
      [Rendered.richLine "h5" (some ⟨some "red", some "green", "Lead"⟩)
        ⟨some "blue", none, "Body"⟩] ∧
    (some "blue" : Option String) ≠ some "red" ∧
    (∀ term : Bool,
      _render_text {} (fun _ => false) term "Body" "h5" (some "Lead")
        { lead_in_background_color := some "green" } =
      _render_text {} (fun _ => false) term "Body" "h5" (some "Lead")
        { lead_in_background_color := some "on_green" }) := by
  refine ⟨by decide, by decide, by decide, ?_⟩
  intro term
  cases term <;> decide

/-- C4 (counterexample): at an elapsed duration of exactly 3600 s the
auto-unit selection of `print_time_elapsed` reports minutes, not the
hours the claim asserts for every duration of at least 3600 s. -/
theorem auto_unit_counterexample :
    print_time_elapsed {} (some 3600) (some 0) (some "⏱️ Time elapsed") "auto" =
      Except.ok [Output.elapsedLine "⏱️ Time elapsed:" (some 60) "minutes"] ∧
    ("minutes" : String) ≠ "hours" := by
  refine ⟨?_, by decide⟩
  norm_num [print_time_elapsed, pfloatEq, pfloatSub, pfloatGt, pfloatGe,
    pfloatDiv, pfloatMul, np_nan, optTruthy]
  simp +decide

/-- C4 (amended): with `units="auto"` and checks enabled, the selection
thresholds are strict at 60 and 3600: milliseconds for elapsed < 1 s,
seconds for 1 ≤ elapsed ≤ 60, minutes for 60 < elapsed ≤ 3600, and hours
for elapsed > 3600. -/
theorem auto_unit_amended (e : ℚ) :
    (e < 1 →
      print_time_elapsed {} (some e) (some 0) (some "⏱️ Time elapsed") "auto" =
        Except.ok [Output.elapsedLine "⏱️ Time elapsed:"
          (some ((e - 0) * 1000)) "milliseconds"]) ∧
    (1 ≤ e → e ≤ 60 →
      print_time_elapsed {} (some e) (some 0) (some "⏱️ Time elapsed") "auto" =
        Except.ok [Output.elapsedLine "⏱️ Time elapsed:" (some (e - 0)) "seconds"]) ∧
    (60 < e → e ≤ 3600 →
      print_time_elapsed {} (some e) (some 0) (some "⏱️ Time elapsed") "auto" =
        Except.ok [Output.elapsedLine "⏱️ Time elapsed:" (some ((e - 0) / 60)) "minutes"]) ∧
    (3600 < e →
      print_time_elapsed {} (some e) (some 0) (some "⏱️ Time elapsed") "auto" =
        Except.ok [Output.elapsedLine "⏱️ Time elapsed:"
          (some ((e - 0) / (60 * 60))) "hours"]) := by
  refine ⟨fun h1 => ?_, fun h1 h2 => ?_, fun h1 h2 => ?_, fun h1 => ?_⟩
  · have c1 : pfloatGt (pfloatSub (some e) (some 0)) (60 * 60) = false := by
      simp only [pfloatSub, pfloatGt, decide_eq_false_iff_not, not_lt]
      linarith
    have c2 : pfloatGt (pfloatSub (some e) (some 0)) 60 = false := by
      simp only [pfloatSub, pfloatGt, decide_eq_false_iff_not, not_lt]
      linarith
    have c3 : pfloatGe (pfloatSub (some e) (some 0)) 1 = false := by
      simp only [pfloatSub, pfloatGe, decide_eq_false_iff_not, not_le]
      linarith
    simp only [print_time_elapsed, c1, c2, c3, Bool.false_eq_true, if_false]
    rfl
  · have c1 : pfloatGt (pfloatSub (some e) (some 0)) (60 * 60) = false := by
      simp only [pfloatSub, pfloatGt, decide_eq_false_iff_not, not_lt]
      linarith
    have c2 : pfloatGt (pfloatSub (some e) (some 0)) 60 = false := by
      simp only [pfloatSub, pfloatGt, decide_eq_false_iff_not, not_lt]
      linarith
    have c3 : pfloatGe (pfloatSub (some e) (some 0)) 1 = true := by
      simp only [pfloatSub, pfloatGe, decide_eq_true_eq]
      linarith
    simp only [print_time_elapsed, c1, c2, c3, Bool.false_eq_true, if_false]
    rfl
  · have c1 : pfloatGt (pfloatSub (some e) (some 0)) (60 * 60) = false := by
      simp only [pfloatSub, pfloatGt, decide_eq_false_iff_not, not_lt]
      linarith
    have c2 : pfloatGt (pfloatSub (some e) (some 0)) 60 = true := by
      simp only [pfloatSub, pfloatGt, decide_eq_true_eq]
      linarith
    simp only [print_time_elapsed, c1, c2, Bool.false_eq_true, if_false]
    rfl
  · have c1 : pfloatGt (pfloatSub (some e) (some 0)) (60 * 60) = true := by
      simp only [pfloatSub, pfloatGt, decide_eq_true_eq]
      linarith
    simp only [print_time_elapsed, c1]
    rfl

/-- C4 witness: the amended characterization applied at concrete elapsed
durations 1/2, 30, 600 and 7200 seconds. -/
theorem auto_unit_amended_witness :
    print_time_elapsed {} (some (1/2)) (some 0) (some "⏱️ Time elapsed") "auto" =
      Except.ok [Output.elapsedLine "⏱️ Time elapsed:"
        (some ((1/2 - 0) * 1000)) "milliseconds"] ∧
    print_time_elapsed {} (some 30) (some 0) (some "⏱️ Time elapsed") "auto" =
      Except.ok [Output.elapsedLine "⏱️ Time elapsed:" (some (30 - 0)) "seconds"] ∧
    print_time_elapsed {} (some 600) (some 0) (some "⏱️ Time elapsed") "auto" =
      Except.ok [Output.elapsedLine "⏱️ Time elapsed:" (some ((600 - 0) / 60)) "minutes"] ∧
    print_time_elapsed {} (some 7200) (some 0) (some "⏱️ Time elapsed") "auto" =
      Except.ok [Output.elapsedLine "⏱️ Time elapsed:"
        (some ((7200 - 0) / (60 * 60))) "hours"] :=
  ⟨(auto_unit_amended (1/2)).1 (by norm_num),
   (auto_unit_amended 30).2.1 (by norm_num) (by norm_num),
   (auto_unit_amended 600).2.2.1 (by norm_num) (by norm_num),
   (auto_unit_amended 7200).2.2.2 (by norm_num)⟩

/-- C10: `_filter_emojis` returns its input unchanged when emojis are
allowed; with emojis disabled it strips leading and trailing whitespace
even when the text contains no emoji glyph at all, so surrounding
padding is lost. -/
theorem filter_emojis_strip_behavior (isEmoji : Char → Bool) (text : String) :
    (_filter_emojis { use_emojis := true } isEmoji text = text) ∧
    ((∀ c ∈ text.data, isEmoji c = false) →
      _filter_emojis { use_emojis := false } isEmoji text = pyStrip text) ∧
    (_filter_emojis { use_emojis := false } (fun _ => false) " Rows: 150 " =
      "Rows: 150") := by
  refine ⟨rfl, fun h => ?_, by decide⟩
  have hf : text.data.filter (fun c => !isEmoji c) = text.data := by
    apply List.filter_eq_self.mpr
    intro c hc
    simp [h c hc]
  simp only [_filter_emojis, hf]
  rfl

/-- C10 witness: the general strip property applied to the emoji-free
padded banner `" Rows: 150 "`. -/
theorem filter_emojis_strip_behavior_witness :
    _filter_emojis { use_emojis := false } (fun _ => false) " Rows: 150 " =
      pyStrip " Rows: 150 " :=
  (filter_emojis_strip_behavior (fun _ => false) " Rows: 150 ").2.1
    (fun _ _ => rfl)
/-- C6: unknown export extension atomicity.  With checks enabled and no
format override, a path ending in none of the supported suffixes makes
`write` raise `AttributeError` with no file written (the export dispatch
errors before any export call), and every successful branch of `write`
returns the original data unchanged. -/
theorem unknown_extension_atomicity (s : Settings) (data d : PValue) (path : String)
    (fn : PValue → PValue) (subset : Subset) (verbose : Bool)
    (hs : s.enable_checks = true)
    (hmod : _apply_modifications data fn subset = Except.ok d)
    (h1 : pyEndsWith path ".csv" = false) (h2 : pyEndsWith path ".feather" = false)
    (h3 : pyEndsWith path ".parquet" = false) (h4 : pyEndsWith path ".pkl" = false)
    (h5 : pyEndsWith path ".tsv" = false) (h6 : pyEndsWith path ".xls" = false)
    (h7 : pyEndsWith path ".xlsx" = false) :
    write s data path none fn subset verbose =
      Except.error (PyErr.attributeError
        ("Can\x27t write data to file. Unknown file extension in: " ++ path ++ ". ")) ∧
    (∀ format res, write s data path format fn subset verbose = Except.ok res →
      res.1 = data) := by
  constructor
  · simp [write, hs, hmod, export_event, format_clean, h1, h2, h3, h4, h5, h6, h7]
  · intro format res hr
    exact write_fst s data path format fn subset verbose res hr

/-- C6 witness: the atomicity property applied to the concrete path
`"out.unknownext"`. -/
theorem unknown_extension_atomicity_witness :
    write {} dfClean "out.unknownext" none id Subset.nullsub false =
      Except.error (PyErr.attributeError
        ("Can\x27t write data to file. Unknown file extension in: " ++
          "out.unknownext" ++ ". ")) ∧
    (dfClean, [Output.fileWrite "out.unknownext" "csv" dfClean]).1 = dfClean :=
  ⟨(unknown_extension_atomicity {} dfClean dfClean "out.unknownext" id Subset.nullsub
      false rfl rfl (by decide) (by decide) (by decide) (by decide) (by decide)
      (by decide) (by decide)).1,
   (unknown_extension_atomicity {} dfClean dfClean "out.unknownext" id Subset.nullsub
      false rfl rfl (by decide) (by decide) (by decide) (by decide) (by decide)
      (by decide) (by decide)).2 (some "csv")
      (dfClean, [Output.fileWrite "out.unknownext" "csv" dfClean])
      (by decide)⟩

/-- C7: settings reset round-trip.  Starting from the freshly initialized
registry, `set_format(precision=9, use_emojis=False)` followed by
`reset_format()` leaves precision at its factory default 2 and emoji
usage at `True`, with the registry still holding its 16 options (no
duplicates); and in general, `_register_option` on an already-registered
name overwrites its current value with the default without changing the
key sequence. -/
theorem settings_reset_roundtrip :
    ((do
      let r ← _initialize_options []
      let r ← set_format r [("precision", OptVal.int 9), ("use_emojis", OptVal.bool false)]
      let r ← reset_format r
      pure (pd_get_option r "pdchecks.precision",
        pd_get_option r "pdchecks.use_emojis", r.length) :
        Except PyErr (Except PyErr OptVal × Except PyErr OptVal × ℕ)) =
      Except.ok (Except.ok (OptVal.int 2), Except.ok (OptVal.bool true), 16)) ∧
    (∀ (r : Registry) (name : String) (dv : OptVal) (v : Validator) (e : RegEntry),
      Registry.lookup r ("pdchecks." ++ registryKeyName name) = some e →
      e.validator.accepts dv = true →
      ∃ r2, _register_option r name dv v = Except.ok r2 ∧
        r2.map Prod.fst = r.map Prod.fst ∧
        Registry.lookup r2 ("pdchecks." ++ registryKeyName name) =
          some { e with value := dv }) := by
  constructor
  · decide
  · intro r name dv v e hl hacc
    refine ⟨r.map (fun p =>
        if p.1 == ("pdchecks." ++ registryKeyName name) then
          (p.1, { p.2 with value := dv }) else p), ?_,
      registry_update_keys r ("pdchecks." ++ registryKeyName name) dv,
      registry_update_lookup r ("pdchecks." ++ registryKeyName name) dv e hl⟩
    simp only [_register_option, pd_get_option, pd_set_option, hl, hacc, if_true]

/-- C7 witness: re-registering an existing `precision` entry resets its
value to the default without duplicating the entry. -/
theorem settings_reset_roundtrip_witness :
    ∃ r2, _register_option
        [("pdchecks.precision", ⟨OptVal.int 5, OptVal.int 2, Validator.nonnegInt⟩)]
        "precision" (OptVal.int 2) Validator.nonnegInt = Except.ok r2 ∧
      r2.map Prod.fst =
        ([("pdchecks.precision",
          (⟨OptVal.int 5, OptVal.int 2, Validator.nonnegInt⟩ : RegEntry))] :
            Registry).map Prod.fst ∧
      Registry.lookup r2 ("pdchecks." ++ registryKeyName "precision") =
        some ⟨OptVal.int 2, OptVal.int 2, Validator.nonnegInt⟩ :=
  settings_reset_roundtrip.2
    [("pdchecks.precision", ⟨OptVal.int 5, OptVal.int 2, Validator.nonnegInt⟩)]
    "precision" (OptVal.int 2) Validator.nonnegInt
    ⟨OptVal.int 5, OptVal.int 2, Validator.nonnegInt⟩ (by decide) (by decide)
